import Mathlib

/-!
Verification of the whatsapp-cloud-api Rust SDK against its specification.

The development shallow-embeds the parts of the SDK that the verified
properties talk about:

* `src/webhooks.rs`: the webhook payload data model, the
  `WebhookPayload::events` classifier, the `verify_signature` check and the
  placeholder `hmac_sha256::HMAC::mac` digest;
* `src/error.rs`: the vendor error envelope and the
  `impl From<ApiErrorResponse> for Error` classification;
* `src/client.rs`: the `Client::handle_response` status/body dispatch.

Machine integers are embedded as `Int` (Rust `i32`) or `Nat` (Rust `u8`,
`u16`, `u64`) with explicit reductions modulo 2^w where overflow matters.
Rust `f64` fields are never computed with by the SDK, only carried through,
so they are embedded as their 64-bit representation (`F64.bits`).
Rust `Option<T>` becomes `Option`, `Vec<T>` and byte slices become `List`,
and `&str` values that the code inspects character by character become
`List Char`.
-/

namespace WaCloud

/-- Embedding of a Rust `f64` value by its 64-bit representation. The SDK
only carries these values through verbatim and never computes with them. -/
structure F64 where
  bits : Nat
deriving DecidableEq

/-! ## Webhook data model (`src/webhooks.rs`) -/

/-- Text message content (`TextMessage`). -/
structure TextMessage where
  body : String
deriving DecidableEq

/-- Media message content for image, video, audio and sticker
(`MediaMessage`). -/
structure MediaMessage where
  id : String
  mime_type : String
  sha256 : Option String
  caption : Option String
deriving DecidableEq

/-- Document message content (`DocumentMessage`). -/
structure DocumentMessage where
  id : String
  mime_type : String
  sha256 : Option String
  filename : Option String
  caption : Option String
deriving DecidableEq

/-- Location message content (`LocationMessage`); `latitude` and
`longitude` are Rust `f64` fields. -/
structure LocationMessage where
  latitude : F64
  longitude : F64
  name : Option String
  address : Option String
deriving DecidableEq

/-- Contact name (`ContactName`). -/
structure ContactName where
  formatted_name : String
  first_name : Option String
  last_name : Option String
deriving DecidableEq

/-- Contact phone (`ContactPhone`); `phone_type` is the serde-renamed
`type` field. -/
structure ContactPhone where
  phone : String
  phone_type : Option String
  wa_id : Option String
deriving DecidableEq

/-- Contact message content (`ContactMessage`). -/
structure ContactMessage where
  name : ContactName
  phones : Option (List ContactPhone)
deriving DecidableEq

/-- Reaction message content (`ReactionMessage`); `message_id` is the id of
the message being reacted to, `emoji` may be the empty string (removal). -/
structure ReactionMessage where
  message_id : String
  emoji : String
deriving DecidableEq

/-- Button reply (`ButtonReply`). -/
structure ButtonReply where
  id : String
  title : String
deriving DecidableEq

/-- List reply (`ListReply`). -/
structure ListReply where
  id : String
  title : String
  description : Option String
deriving DecidableEq

/-- Interactive message response (`InteractiveResponse`); `response_type`
is the serde-renamed `type` field. -/
structure InteractiveResponse where
  response_type : String
  button_reply : Option ButtonReply
  list_reply : Option ListReply
deriving DecidableEq

/-- Quick reply button response (`ButtonResponse`). -/
structure ButtonResponse where
  text : String
  payload : String
deriving DecidableEq

/-- Message context for replies (`MessageContext`). -/
structure MessageContext where
  message_id : String
  from_field : Option String
  forwarded : Option Bool
  frequently_forwarded : Option Bool
deriving DecidableEq

/-- Identity information (`IdentityInfo`). -/
structure IdentityInfo where
  acknowledged : Bool
  created_timestamp : String
  hash : String
deriving DecidableEq

/-- Referral information (`ReferralInfo`). -/
structure ReferralInfo where
  source_url : String
  source_type : String
  source_id : String
  headline : Option String
  body : Option String
  media_type : Option String
  image_url : Option String
  video_url : Option String
  thumbnail_url : Option String
deriving DecidableEq

/-- Product item in an order (`ProductItem`); `quantity` is a Rust `i32`. -/
structure ProductItem where
  product_retailer_id : String
  quantity : Int
  item_price : String
  currency : String
deriving DecidableEq

/-- Order information (`OrderInfo`). -/
structure OrderInfo where
  catalog_id : String
  product_items : List ProductItem
  text : Option String
deriving DecidableEq

/-- System message (`SystemMessage`); `system_type` is the serde-renamed
`type` field. -/
structure SystemMessage where
  body : Option String
  identity : Option String
  new_wa_id : Option String
  system_type : Option String
  customer : Option String
deriving DecidableEq

/-- Error data nested in a webhook error (`ErrorData`). -/
structure ErrorData where
  details : String
deriving DecidableEq

/-- Webhook error (`WebhookError`); `code` is a Rust `i32`. -/
structure WebhookError where
  code : Int
  title : Option String
  message : Option String
  error_data : Option ErrorData
deriving DecidableEq

/-- Incoming message (`WebhookMessage`); `message_type` is the
serde-renamed `type` field and `from_field` the Rust field `from`. -/
structure WebhookMessage where
  from_field : String
  id : String
  timestamp : String
  message_type : String
  text : Option TextMessage
  image : Option MediaMessage
  video : Option MediaMessage
  audio : Option MediaMessage
  document : Option DocumentMessage
  sticker : Option MediaMessage
  location : Option LocationMessage
  contacts : Option (List ContactMessage)
  reaction : Option ReactionMessage
  interactive : Option InteractiveResponse
  button : Option ButtonResponse
  context : Option MessageContext
  identity : Option IdentityInfo
  referral : Option ReferralInfo
  order : Option OrderInfo
  system : Option SystemMessage
  errors : Option (List WebhookError)
deriving DecidableEq

/-- Conversation origin (`ConversationOrigin`); `origin_type` is the
serde-renamed `type` field. -/
structure ConversationOrigin where
  origin_type : String
deriving DecidableEq

/-- Conversation information (`ConversationInfo`). -/
structure ConversationInfo where
  id : String
  origin : Option ConversationOrigin
  expiration_timestamp : Option String
deriving DecidableEq

/-- Pricing information (`PricingInfo`). -/
structure PricingInfo where
  billable : Bool
  pricing_model : String
  category : String
deriving DecidableEq

/-- Message status update (`WebhookStatus`). -/
structure WebhookStatus where
  id : String
  recipient_id : String
  status : String
  timestamp : String
  conversation : Option ConversationInfo
  pricing : Option PricingInfo
  errors : Option (List WebhookError)
deriving DecidableEq

/-- Contact profile (`WebhookProfile`). -/
structure WebhookProfile where
  name : String
deriving DecidableEq

/-- Contact information from a webhook (`WebhookContact`). -/
structure WebhookContact where
  profile : WebhookProfile
  wa_id : String
deriving DecidableEq

/-- Metadata about the business phone number (`WebhookMetadata`). -/
structure WebhookMetadata where
  display_phone_number : String
  phone_number_id : String
deriving DecidableEq

/-- Webhook value holding all possible notification types
(`WebhookValue`). -/
structure WebhookValue where
  messaging_product : String
  metadata : WebhookMetadata
  contacts : Option (List WebhookContact)
  messages : Option (List WebhookMessage)
  statuses : Option (List WebhookStatus)
  errors : Option (List WebhookError)
deriving DecidableEq

/-- Webhook change object (`WebhookChange`). -/
structure WebhookChange where
  value : WebhookValue
  field : String
deriving DecidableEq

/-- Webhook entry (`WebhookEntry`). -/
structure WebhookEntry where
  id : String
  changes : List WebhookChange
deriving DecidableEq

/-- Root webhook payload (`WebhookPayload`). -/
structure WebhookPayload where
  object : String
  entry : List WebhookEntry
deriving DecidableEq

/-- Webhook event type enumeration (`WebhookEvent`). -/
inductive WebhookEvent where
  | TextMessage (from_field : String) (text : String) (message_id : String)
  | ImageMessage (from_field : String) (media_id : String) (message_id : String) (caption : Option String)
  | VideoMessage (from_field : String) (media_id : String) (message_id : String) (caption : Option String)
  | AudioMessage (from_field : String) (media_id : String) (message_id : String)
  | DocumentMessage (from_field : String) (media_id : String) (message_id : String) (filename : Option String)
  | StickerMessage (from_field : String) (media_id : String) (message_id : String)
  | LocationMessage (from_field : String) (latitude : F64) (longitude : F64) (message_id : String)
  | ContactMessage (from_field : String) (message_id : String)
  | Reaction (from_field : String) (message_id : String) (emoji : String)
  | ButtonReply (from_field : String) (button_id : String) (button_title : String) (message_id : String)
  | ListReply (from_field : String) (row_id : String) (row_title : String) (message_id : String)
  | MessageSent (message_id : String) (recipient : String)
  | MessageDelivered (message_id : String) (recipient : String)
  | MessageRead (message_id : String) (recipient : String)
  | MessageFailed (message_id : String) (recipient : String) (error_code : Int)
  | Unknown
deriving DecidableEq

/-- Per-message dispatch of `WebhookPayload::events`
(`src/webhooks.rs` lines 535-666): the `match msg.message_type.as_str()`
expression computing the event pushed for one inbound message. -/
def messageEvent (msg : WebhookMessage) : WebhookEvent :=
  if msg.message_type = "text" then
    match msg.text with
    | some text => WebhookEvent.TextMessage msg.from_field text.body msg.id
    | none => WebhookEvent.Unknown
  else if msg.message_type = "image" then
    match msg.image with
    | some image => WebhookEvent.ImageMessage msg.from_field image.id msg.id image.caption
    | none => WebhookEvent.Unknown
  else if msg.message_type = "video" then
    match msg.video with
    | some video => WebhookEvent.VideoMessage msg.from_field video.id msg.id video.caption
    | none => WebhookEvent.Unknown
  else if msg.message_type = "audio" then
    match msg.audio with
    | some audio => WebhookEvent.AudioMessage msg.from_field audio.id msg.id
    | none => WebhookEvent.Unknown
  else if msg.message_type = "document" then
    match msg.document with
    | some doc => WebhookEvent.DocumentMessage msg.from_field doc.id msg.id doc.filename
    | none => WebhookEvent.Unknown
  else if msg.message_type = "sticker" then
    match msg.sticker with
    | some sticker => WebhookEvent.StickerMessage msg.from_field sticker.id msg.id
    | none => WebhookEvent.Unknown
  else if msg.message_type = "location" then
    match msg.location with
    | some loc => WebhookEvent.LocationMessage msg.from_field loc.latitude loc.longitude msg.id
    | none => WebhookEvent.Unknown
  else if msg.message_type = "contacts" then
    WebhookEvent.ContactMessage msg.from_field msg.id
  else if msg.message_type = "reaction" then
    match msg.reaction with
    | some reaction => WebhookEvent.Reaction msg.from_field reaction.message_id reaction.emoji
    | none => WebhookEvent.Unknown
  else if msg.message_type = "interactive" then
    match msg.interactive with
    | some interactive =>
      if interactive.response_type = "button_reply" then
        match interactive.button_reply with
        | some br => WebhookEvent.ButtonReply msg.from_field br.id br.title msg.id
        | none => WebhookEvent.Unknown
      else if interactive.response_type = "list_reply" then
        match interactive.list_reply with
        | some lr => WebhookEvent.ListReply msg.from_field lr.id lr.title msg.id
        | none => WebhookEvent.Unknown
      else WebhookEvent.Unknown
    | none => WebhookEvent.Unknown
  else WebhookEvent.Unknown

/-- Per-status dispatch of `WebhookPayload::events`
(`src/webhooks.rs` lines 674-701): the `match status.status.as_str()`
expression computing the event pushed for one status update. The `failed`
arm mirrors `status.errors.as_ref().and_then(|e| e.first()).map(|e| e.code)
.unwrap_or(0)`. -/
def statusEvent (status : WebhookStatus) : WebhookEvent :=
  if status.status = "sent" then
    WebhookEvent.MessageSent status.id status.recipient_id
  else if status.status = "delivered" then
    WebhookEvent.MessageDelivered status.id status.recipient_id
  else if status.status = "read" then
    WebhookEvent.MessageRead status.id status.recipient_id
  else if status.status = "failed" then
    WebhookEvent.MessageFailed status.id status.recipient_id
      (((status.errors.bind List.head?).map WebhookError.code).getD 0)
  else WebhookEvent.Unknown

/-- Embedding of `WebhookPayload::events` (`src/webhooks.rs` lines
527-709): nested loops over entries and changes pushing one event per
inbound message, then one per status update, onto a growing vector. The
accumulator threading mirrors `events.push(event)`. -/
def WebhookPayload.events (p : WebhookPayload) : List WebhookEvent :=
  p.entry.foldl
    (fun evs entry =>
      entry.changes.foldl
        (fun evs change =>
          let evs :=
            match change.value.messages with
            | some messages => messages.foldl (fun evs msg => evs ++ [messageEvent msg]) evs
            | none => evs
          match change.value.statuses with
          | some statuses => statuses.foldl (fun evs status => evs ++ [statusEvent status]) evs
          | none => evs)
        evs)
    []

/-- Specification-side characterization target: the events contributed by
one change, messages first then statuses, each in array order. -/
def changeEvents (change : WebhookChange) : List WebhookEvent :=
  (change.value.messages.getD []).map messageEvent
    ++ (change.value.statuses.getD []).map statusEvent

/-- Specification-side measure: the number N of inbound messages in a
payload, across all entries and changes. -/
def messageCount (p : WebhookPayload) : Nat :=
  (p.entry.map (fun e =>
    (e.changes.map (fun c => (c.value.messages.getD []).length)).sum)).sum

/-- Specification-side measure: the number M of status updates in a
payload, across all entries and changes. -/
def statusCount (p : WebhookPayload) : Nat :=
  (p.entry.map (fun e =>
    (e.changes.map (fun c => (c.value.statuses.getD []).length)).sum)).sum

/-! ## Error model (`src/error.rs`) -/

/-- Additional error data from the API (`ApiErrorData`). -/
structure ApiErrorData where
  messaging_product : Option String
  details : Option String
deriving DecidableEq

/-- Error object from the API (`ApiError`); `error_type` is the
serde-renamed `type` field and `code` a Rust `i32`. -/
structure ApiError where
  message : String
  error_type : Option String
  code : Int
  error_subcode : Option Int
  error_user_title : Option String
  error_user_msg : Option String
  fbtrace_id : Option String
  error_data : Option ApiErrorData
deriving DecidableEq

/-- Error response envelope from the WhatsApp Cloud API
(`ApiErrorResponse`). -/
structure ApiErrorResponse where
  error : ApiError
deriving DecidableEq

/-- Embedding of the SDK `Error` enum restricted to the variants the
classification logic in `src/error.rs` and `src/client.rs` can produce.
The remaining Rust variants (`Request`, `Json`, `UrlParse`, `MediaUpload`,
`InvalidPhoneNumber`, `MessageNotSent`, `Io`) wrap values of external
library types; of these only `Json` is reachable from `handle_response`
(on a success body that fails to deserialize) and it is kept abstract. -/
inductive Error where
  | Api (code : Int) (message : String) (error_subcode : Option Int) (error_data : Option ApiErrorData)
  | RateLimited (retry_after : Option Nat)
  | InvalidToken
  | Json
deriving DecidableEq

/-- Constructor tag of an `Error`, used to state which variant was
chosen independently of the carried fields. -/
def Error.tag : Error → Nat
  | Error.Api _ _ _ _ => 0
  | Error.RateLimited _ => 1
  | Error.InvalidToken => 2
  | Error.Json => 3

/-- Embedding of `impl From<ApiErrorResponse> for Error`
(`src/error.rs` lines 96-112): the `match err.code` on the parsed vendor
error code. -/
def errorFromApiErrorResponse (response : ApiErrorResponse) : Error :=
  let err := response.error
  if err.code = 190 then Error.InvalidToken
  else if err.code = 4 ∨ err.code = 17 ∨ err.code = 32 ∨ err.code = 613 then
    Error.RateLimited none
  else Error.Api err.code err.message err.error_subcode err.error_data

/-- Helper for stating message-independence: the same envelope with the
message text replaced. -/
def ApiErrorResponse.withMessage (response : ApiErrorResponse) (m : String) : ApiErrorResponse :=
  { error := { response.error with message := m } }

/-! ## Response handling (`src/client.rs`) -/

/-- Embedding of `reqwest::StatusCode::is_success`: the status is in the
2xx range. The status itself is the `u16` HTTP status code. -/
def statusIsSuccess (status : Nat) : Bool :=
  200 ≤ status ∧ status < 300

/-- Embedding of `Client::handle_response` (`src/client.rs` lines
198-219), with the two external `serde_json::from_str` calls abstracted as
parameters: `parseBody` deserializes a success body into `T` and
`parseErr` tries the vendor error envelope on a failure body. On success
status the body is parsed as `T` (a parse failure becoming `Error.Json`);
otherwise the envelope parse decides between the classified vendor error
and the `Error.Api` fallback built from the raw status and body. -/
def handleResponse {T : Type} (status : Nat) (body : String)
    (parseBody : String → Option T) (parseErr : String → Option ApiErrorResponse) :
    Except Error T :=
  if statusIsSuccess status then
    match parseBody body with
    | some v => Except.ok v
    | none => Except.error Error.Json
  else
    match parseErr body with
    | some errorResponse => Except.error (errorFromApiErrorResponse errorResponse)
    | none => Except.error (Error.Api (Int.ofNat status) body none none)

/-! ## Signature verification (`src/webhooks.rs` lines 712-762)

The placeholder `hmac_sha256::HMAC::mac` feeds the key and the data to a
`std::collections::hash_map::DefaultHasher` and keeps only the 64-bit
`finish()` value. `DefaultHasher` lives in the Rust standard library, not
in this repository, so the whole hasher run is abstracted as a parameter
`H : List Nat → List Nat → Nat` taking the key bytes and the data bytes to
the `u64` result (only `H key data % 2^64` ever matters because exactly
eight little-endian bytes of it are kept). Byte slices are `List Nat` and
the signature header, which the code inspects, is `List Char`. -/

/-- Little-endian byte decomposition: the `k` low bytes of `v`, mirroring
`u64::to_le_bytes` when `k = 8`. -/
def natToLeBytes : Nat → Nat → List Nat
  | 0, _ => []
  | k + 1, v => v % 256 :: natToLeBytes k (v / 256)

/-- Lowercase hexadecimal digit for a value below 16, as produced by the
Rust `{:02x}` format. -/
def hexDigitChar (n : Nat) : Char :=
  if n < 10 then Char.ofNat (48 + n) else Char.ofNat (87 + n)

/-- The two lowercase hex characters of one byte (`write!("{:02x}", byte)`). -/
def byteHexChars (b : Nat) : List Char :=
  [hexDigitChar (b / 16 % 16), hexDigitChar (b % 16)]

/-- Lowercase hex encoding of a byte sequence: the `for byte in key`
formatting loop of `verify_signature`. -/
def hexEncodeChars (bytes : List Nat) : List Char :=
  bytes.flatMap byteHexChars

/-- Embedding of `hmac_sha256::HMAC::mac` (`src/webhooks.rs` lines
745-759): a 32-byte array that starts as all zeroes and receives the eight
little-endian bytes of the hasher result at indices 0-7. `H` is the
abstracted `DefaultHasher` run over the key then the data. -/
def HMAC.mac (H : List Nat → List Nat → Nat) (data key : List Nat) : List Nat :=
  natToLeBytes 8 (H key data) ++ List.replicate 24 0

/-- The characters of the `"sha256="` scheme marker. -/
def schemeChars : List Char := "sha256=".toList

/-- Embedding of `signature.strip_prefix("sha256=").unwrap_or(signature)`:
drop the scheme marker when present, otherwise keep the header unchanged. -/
def dropScheme (s : List Char) : List Char :=
  if schemeChars.isPrefixOf s then s.drop 7 else s

/-- Embedding of `verify_signature` (`src/webhooks.rs` lines 723-738):
strip the optional scheme marker, hex-encode the placeholder mac of the
payload under the app secret, and compare with Rust `==` string equality. -/
def verify_signature (H : List Nat → List Nat → Nat)
    (payload : List Nat) (signature : List Char) (app_secret : List Nat) : Bool :=
  let sig := dropScheme signature
  let computed := hexEncodeChars (HMAC.mac H payload app_secret)
  computed = sig

/-- Predicate for a lowercase hexadecimal character, the only characters
`hexEncodeChars` can produce. -/
def isLowerHexChar (c : Char) : Bool :=
  (48 ≤ c.toNat ∧ c.toNat ≤ 57) ∨ (97 ≤ c.toNat ∧ c.toNat ≤ 102)

/-! ### Cost model of the final comparison

`computed == sig` in `verify_signature` is Rust `PartialEq` string
equality: it first compares the lengths and then the bytes left to right,
stopping at the first mismatch. `eqScanCost` counts the character
comparisons this algorithm performs once the lengths agree, and
`rustStrEqCost` the comparisons of the whole equality (zero when the
length check already fails). -/

/-- Character comparisons performed by left-to-right short-circuit
equality: each position costs one comparison and the scan stops at the
first mismatch. -/
def eqScanCost : List Char → List Char → Nat
  | a :: as, b :: bs => 1 + (if a = b then eqScanCost as bs else 0)
  | _, _ => 0

/-- Character comparisons performed by Rust `==` on strings: none when the
lengths differ, otherwise a short-circuit scan. -/
def rustStrEqCost (xs ys : List Char) : Nat :=
  if xs.length = ys.length then eqScanCost xs ys else 0

/-- Character comparisons performed by the final `computed == sig` of
`verify_signature` on the given inputs. -/
def verifyCost (H : List Nat → List Nat → Nat)
    (payload : List Nat) (signature : List Char) (app_secret : List Nat) : Nat :=
  rustStrEqCost (hexEncodeChars (HMAC.mac H payload app_secret)) (dropScheme signature)

/-- A concrete abstract hasher for closed evaluations: every input hashes
to zero, so the computed digest is sixty-four `0` characters. -/
def hZero : List Nat → List Nat → Nat := fun _ _ => 0

/-- A rejected signature mismatching the `hZero` digest at the first
character. -/
def sigFirstMismatch : List Char := '1' :: List.replicate 63 '0'

/-- A rejected signature mismatching the `hZero` digest at the last
character. -/
def sigLastMismatch : List Char := List.replicate 63 '0' ++ ['1']

/-! ## Concrete fixtures for closed evaluations -/

/-- Fixture: an inbound message of the given type with every optional
sub-object absent. -/
def bareMessage (mtype : String) : WebhookMessage :=
  { from_field := "15550001111", id := "wamid.test", timestamp := "1700000000",
    message_type := mtype, text := none, image := none, video := none,
    audio := none, document := none, sticker := none, location := none,
    contacts := none, reaction := none, interactive := none, button := none,
    context := none, identity := none, referral := none, order := none,
    system := none, errors := none }

/-- Fixture: business phone metadata. -/
def testMetadata : WebhookMetadata :=
  { display_phone_number := "15550001111", phone_number_id := "1234567890" }

/-- Fixture: a payload with one entry containing one change carrying the
given message and status lists. -/
def mkPayload (messages : Option (List WebhookMessage))
    (statuses : Option (List WebhookStatus)) : WebhookPayload :=
  { object := "whatsapp_business_account",
    entry := [{ id := "entry1",
                changes := [{ value := { messaging_product := "whatsapp",
                                         metadata := testMetadata,
                                         contacts := none,
                                         messages := messages,
                                         statuses := statuses,
                                         errors := none },
                              field := "messages" }] }] }

/-- Fixture: a status update with the given status string and error list. -/
def bareStatus (st : String) (errors : Option (List WebhookError)) : WebhookStatus :=
  { id := "wamid.status", recipient_id := "15552223333", status := st,
    timestamp := "1700000001", conversation := none, pricing := none,
    errors := errors }

/-- Fixture: a vendor error envelope with the given code and message and
no optional fields. -/
def mkApiErrorResponse (code : Int) (message : String) : ApiErrorResponse :=
  { error := { message := message, error_type := none, code := code,
               error_subcode := none, error_user_title := none,
               error_user_msg := none, fbtrace_id := none, error_data := none } }

/-- Fixture: a button reply with id `btn_yes` and title `Yes`. -/
def btnYesReply : ButtonReply := { id := "btn_yes", title := "Yes" }

/-- Fixture: a list reply with row id `row1` and title `Row`. -/
def row1Reply : ListReply := { id := "row1", title := "Row", description := none }

/-- Fixture: an interactive sub-object with the given inner type and
replies. -/
def mkInteractive (rtype : String) (br : Option ButtonReply) (lr : Option ListReply) :
    InteractiveResponse :=
  { response_type := rtype, button_reply := br, list_reply := lr }

/-- Fixture: an interactive message carrying the given sub-object. -/
def interactiveMsg (i : InteractiveResponse) : WebhookMessage :=
  { bareMessage ("interactive") with interactive := some i }

/-! ## Structure of the event loop -/

/-- Pushing one element per input onto an accumulator is the same as
appending the mapped inputs. -/
theorem foldl_push_eq_append {α β : Type} (f : α → β) (l : List α) (acc : List β) :
    l.foldl (fun evs x => evs ++ [f x]) acc = acc ++ l.map f := by
  induction l generalizing acc with
  | nil => simp
  | cons x xs ih => simp [ih, List.append_assoc]

/-- The change-level loop of `events` appends `changeEvents` of each
change in order. -/
theorem changes_foldl_eq (changes : List WebhookChange) (acc : List WebhookEvent) :
    changes.foldl
      (fun evs change =>
        let evs :=
          match change.value.messages with
          | some messages => messages.foldl (fun evs msg => evs ++ [messageEvent msg]) evs
          | none => evs
        match change.value.statuses with
        | some statuses => statuses.foldl (fun evs status => evs ++ [statusEvent status]) evs
        | none => evs)
      acc = acc ++ changes.flatMap changeEvents := by
  induction changes generalizing acc with
  | nil => simp
  | cons c cs ih =>
      rw [List.foldl_cons, ih, List.flatMap_cons]
      cases hm : c.value.messages <;> cases hs : c.value.statuses <;>
        simp [changeEvents, hm, hs, foldl_push_eq_append, List.append_assoc]

/-- The entry-level loop of `events` appends the per-entry contributions
in order. -/
theorem entries_foldl_eq (entries : List WebhookEntry) (acc : List WebhookEvent) :
    entries.foldl
      (fun evs entry =>
        entry.changes.foldl
          (fun evs change =>
            let evs :=
              match change.value.messages with
              | some messages => messages.foldl (fun evs msg => evs ++ [messageEvent msg]) evs
              | none => evs
            match change.value.statuses with
            | some statuses => statuses.foldl (fun evs status => evs ++ [statusEvent status]) evs
            | none => evs)
          evs)
      acc = acc ++ entries.flatMap (fun e => e.changes.flatMap changeEvents) := by
  induction entries generalizing acc with
  | nil => simp
  | cons e es ih =>
      rw [List.foldl_cons, changes_foldl_eq, ih, List.flatMap_cons, List.append_assoc]

/-- Characterization of the imperative event loop: `events` is the
flattening of `changeEvents` over entries and changes in array order. -/
theorem events_eq_flatMap (p : WebhookPayload) :
    p.events = p.entry.flatMap (fun e => e.changes.flatMap changeEvents) := by
  simpa [WebhookPayload.events] using entries_foldl_eq p.entry []

/-- Sums of pointwise additions split into two sums. -/
theorem sum_map_add_distrib {α : Type} (f g : α → Nat) (l : List α) :
    (l.map (fun x => f x + g x)).sum = (l.map f).sum + (l.map g).sum := by
  induction l with
  | nil => simp
  | cons x xs ih =>
      simp only [List.map_cons, List.sum_cons, ih]
      omega

/-- C2: for every webhook payload containing N inbound messages and M
status updates distributed across any number of entries and changes,
`events` returns exactly N+M events, ordered by entry array order, then
change array order within an entry, and within each change all events from
the messages list (in array order) before all events from the statuses
list (in array order); both lists being present in one change needs no
special-casing. -/
theorem events_order_and_count (p : WebhookPayload) :
    p.events = p.entry.flatMap (fun e => e.changes.flatMap (fun c =>
        (c.value.messages.getD []).map messageEvent
          ++ (c.value.statuses.getD []).map statusEvent)) ∧
    p.events.length = messageCount p + statusCount p := by
  refine ⟨by simpa [changeEvents] using events_eq_flatMap p, ?_⟩
  rw [events_eq_flatMap]
  simp only [List.length_flatMap, List.map_map, Function.comp_def, changeEvents,
    List.length_append, List.length_map]
  have inner : ∀ e : WebhookEntry,
      (e.changes.map (fun c =>
        (c.value.messages.getD []).length + (c.value.statuses.getD []).length)).sum
      = (e.changes.map (fun c => (c.value.messages.getD []).length)).sum
        + (e.changes.map (fun c => (c.value.statuses.getD []).length)).sum :=
    fun e => sum_map_add_distrib _ _ e.changes
  simp only [inner, sum_map_add_distrib]
  rfl

/-- C3 counterexample: a message whose type discriminator is `contacts`
with the contacts sub-object absent does not yield an `Unknown` event;
`events` emits a `ContactMessage` event for it. -/
theorem contacts_absent_counterexample :
    (mkPayload (some ([bareMessage ("contacts")])) none).events
      = [WebhookEvent.ContactMessage ("15550001111") ("wamid.test")]
    ∧ (mkPayload (some ([bareMessage ("contacts")])) none).events
      ≠ [WebhookEvent.Unknown] := by
  decide

/-- C3 (amended): for every inbound message whose type discriminator is
one of the sub-object-reading kinds (text, image, video, audio, document,
sticker, location, reaction, interactive) with the matching sub-object
absent, or whose discriminator is unrecognized, `events` emits exactly one
`Unknown` event for that message and processes the remaining messages of
the same list unaffected. The discriminator `contacts` is excluded: its
arm never reads the contacts sub-object and emits `ContactMessage`
unconditionally. -/
theorem message_dispatch_absent_unknown (msg : WebhookMessage)
    (h : (msg.message_type = "text" ∧ msg.text = none)
       ∨ (msg.message_type = "image" ∧ msg.image = none)
       ∨ (msg.message_type = "video" ∧ msg.video = none)
       ∨ (msg.message_type = "audio" ∧ msg.audio = none)
       ∨ (msg.message_type = "document" ∧ msg.document = none)
       ∨ (msg.message_type = "sticker" ∧ msg.sticker = none)
       ∨ (msg.message_type = "location" ∧ msg.location = none)
       ∨ (msg.message_type = "reaction" ∧ msg.reaction = none)
       ∨ (msg.message_type = "interactive" ∧ msg.interactive = none)
       ∨ msg.message_type ∉ (["text", "image", "video", "audio", "document",
            "sticker", "location", "contacts", "reaction", "interactive"] : List String)) :
    messageEvent msg = WebhookEvent.Unknown ∧
    ∀ (pre post : List WebhookMessage) (statuses : Option (List WebhookStatus)),
      (mkPayload (some (pre ++ msg :: post)) statuses).events
        = pre.map messageEvent ++ WebhookEvent.Unknown :: post.map messageEvent
          ++ (statuses.getD []).map statusEvent := by
  have hu : messageEvent msg = WebhookEvent.Unknown := by
    rcases h with h | h | h | h | h | h | h | h | h | h
    · simp [messageEvent, h.1, h.2]
    · simp [messageEvent, h.1, h.2]
    · simp [messageEvent, h.1, h.2]
    · simp [messageEvent, h.1, h.2]
    · simp [messageEvent, h.1, h.2]
    · simp [messageEvent, h.1, h.2]
    · simp [messageEvent, h.1, h.2]
    · simp [messageEvent, h.1, h.2]
    · simp [messageEvent, h.1, h.2]
    · simp only [List.mem_cons, List.not_mem_nil, or_false] at h
      push_neg at h
      obtain ⟨h1, h2, h3, h4, h5, h6, h7, h8, h9, h10⟩ := h
      simp [messageEvent, h1, h2, h3, h4, h5, h6, h7, h8, h9, h10]
  refine ⟨hu, ?_⟩
  intro pre post statuses
  rw [events_eq_flatMap]
  simp [mkPayload, changeEvents, hu]

/-- Witness for the amended C3 at a concrete input: an
`unsupported_future_type` message between two `contacts` messages yields
exactly one `Unknown` in place and leaves its neighbours unaffected. -/
theorem message_dispatch_absent_unknown_witness :
    messageEvent (bareMessage ("unsupported_future_type")) = WebhookEvent.Unknown ∧
    (mkPayload (some ([bareMessage ("contacts"), bareMessage ("unsupported_future_type"),
        bareMessage ("contacts")])) none).events
      = [WebhookEvent.ContactMessage ("15550001111") ("wamid.test"), WebhookEvent.Unknown,
         WebhookEvent.ContactMessage ("15550001111") ("wamid.test")] := by
  have h := message_dispatch_absent_unknown (bareMessage ("unsupported_future_type"))
    (by decide)
  refine ⟨h.1, ?_⟩
  have h2 := h.2 [bareMessage ("contacts")] [bareMessage ("contacts")] none
  simpa [messageEvent, bareMessage] using h2

/-- C4: for every parsed vendor error envelope the classification is
determined solely by the numeric error code: code 190 maps to the invalid
token error, codes 4, 17, 32 and 613 map to the rate limit error with no
retry-after, every other code maps to the generic API error carrying code,
message, subcode and detail verbatim, and the chosen variant never depends
on the message text. -/
theorem error_classification_by_code (resp : ApiErrorResponse) :
    (resp.error.code = 190 → errorFromApiErrorResponse resp = Error.InvalidToken) ∧
    (resp.error.code = 4 ∨ resp.error.code = 17 ∨ resp.error.code = 32 ∨ resp.error.code = 613 →
      errorFromApiErrorResponse resp = Error.RateLimited none) ∧
    (resp.error.code ≠ 190 →
      ¬(resp.error.code = 4 ∨ resp.error.code = 17 ∨ resp.error.code = 32 ∨ resp.error.code = 613) →
      errorFromApiErrorResponse resp
        = Error.Api resp.error.code resp.error.message resp.error.error_subcode
            resp.error.error_data) ∧
    (∀ m₁ m₂ : String, (errorFromApiErrorResponse (resp.withMessage m₁)).tag
        = (errorFromApiErrorResponse (resp.withMessage m₂)).tag) := by
  refine ⟨?_, ?_, ?_, ?_⟩
  · intro h
    simp [errorFromApiErrorResponse, h]
  · intro h
    have h190 : resp.error.code ≠ 190 := by rcases h with h | h | h | h <;> omega
    simp [errorFromApiErrorResponse, h190, h]
  · intro h1 h2
    simp [errorFromApiErrorResponse, h1, h2]
  · intro m₁ m₂
    by_cases h190 : resp.error.code = 190
    · simp [errorFromApiErrorResponse, ApiErrorResponse.withMessage, h190]
    · by_cases hrl : resp.error.code = 4 ∨ resp.error.code = 17 ∨ resp.error.code = 32
          ∨ resp.error.code = 613
      · simp [errorFromApiErrorResponse, ApiErrorResponse.withMessage, h190, hrl]
      · simp [errorFromApiErrorResponse, ApiErrorResponse.withMessage, h190, hrl, Error.tag]

/-- Witness for C4 at concrete envelopes: code 190 yields the invalid
token error, code 4 the rate limit error, code 100 the generic error with
all fields carried through, and replacing the message text never changes
the chosen variant. -/
theorem error_classification_by_code_witness :
    errorFromApiErrorResponse (mkApiErrorResponse 190 ("token expired")) = Error.InvalidToken ∧
    errorFromApiErrorResponse (mkApiErrorResponse 4 ("too many calls")) = Error.RateLimited none ∧
    errorFromApiErrorResponse (mkApiErrorResponse 100 ("bad parameter"))
      = Error.Api 100 ("bad parameter") none none ∧
    (errorFromApiErrorResponse ((mkApiErrorResponse 100 ("bad parameter")).withMessage
        ("something else"))).tag
      = (errorFromApiErrorResponse ((mkApiErrorResponse 100 ("bad parameter")).withMessage
        ("bad parameter"))).tag := by
  refine ⟨(error_classification_by_code _).1 (by decide),
          (error_classification_by_code _).2.1 (by decide), ?_, ?_⟩
  · have h := (error_classification_by_code (mkApiErrorResponse 100 ("bad parameter"))).2.2.1
      (by decide) (by decide)
    simpa [mkApiErrorResponse] using h
  · exact (error_classification_by_code (mkApiErrorResponse 100 ("bad parameter"))).2.2.2
      ("something else") ("bad parameter")

/-- C5: for every non-success HTTP response whose body does not parse as
the vendor error envelope, `handle_response` returns the generic API error
with code equal to the HTTP status, message equal to the raw body text and
no subcode or detail — the failure information is never discarded. -/
theorem fallback_generic_on_unparsed_body {T : Type} (status : Nat) (body : String)
    (parseBody : String → Option T) (parseErr : String → Option ApiErrorResponse)
    (hfail : statusIsSuccess status = false) (hparse : parseErr body = none) :
    handleResponse status body parseBody parseErr
      = Except.error (Error.Api (Int.ofNat status) body none none) := by
  simp [handleResponse, hfail, hparse]

/-- Witness for C5 at a concrete response: an HTTP 502 with a gateway
error page body and a failing envelope parse yields the generic API error
carrying 502 and the raw body. -/
theorem fallback_generic_on_unparsed_body_witness :
    @handleResponse Nat 502 ("Bad Gateway") (fun _ => none) (fun _ => none)
      = Except.error (Error.Api 502 ("Bad Gateway") none none) := by
  have h := fallback_generic_on_unparsed_body (T := Nat) 502 ("Bad Gateway")
    (fun _ => none) (fun _ => none) (by decide) rfl
  simpa using h

/-- C6: for every status update with discriminator `failed`, the emitted
`MessageFailed` event carries the error code of the first element of the
status's errors list, and the sentinel 0 when that list is absent or
empty; any discriminator other than sent, delivered, read or failed yields
`Unknown`. -/
theorem failed_status_error_code (s : WebhookStatus) :
    (∀ e rest, s.status = "failed" → s.errors = some (e :: rest) →
      statusEvent s = WebhookEvent.MessageFailed s.id s.recipient_id e.code) ∧
    (s.status = "failed" → s.errors = none ∨ s.errors = some [] →
      statusEvent s = WebhookEvent.MessageFailed s.id s.recipient_id 0) ∧
    (s.status ≠ "sent" → s.status ≠ "delivered" → s.status ≠ "read" → s.status ≠ "failed" →
      statusEvent s = WebhookEvent.Unknown) := by
  refine ⟨?_, ?_, ?_⟩
  · intro e rest hst herr
    simp [statusEvent, hst, herr]
  · intro hst herr
    rcases herr with herr | herr <;> simp [statusEvent, hst, herr]
  · intro h1 h2 h3 h4
    simp [statusEvent, h1, h2, h3, h4]

/-- Witness for C6 at concrete status updates: a failed status whose first
error has code 131026 yields that code, a failed status with an empty
error list yields the sentinel 0, and an unrecognized discriminator yields
`Unknown`. -/
theorem failed_status_error_code_witness :
    statusEvent (bareStatus ("failed")
        (some [{ code := 131026, title := none, message := none, error_data := none }]))
      = WebhookEvent.MessageFailed ("wamid.status") ("15552223333") 131026 ∧
    statusEvent (bareStatus ("failed") (some []))
      = WebhookEvent.MessageFailed ("wamid.status") ("15552223333") 0 ∧
    statusEvent (bareStatus ("pending") none) = WebhookEvent.Unknown := by
  refine ⟨?_, ?_, ?_⟩
  · have h := (failed_status_error_code (bareStatus ("failed")
        (some [{ code := 131026, title := none, message := none, error_data := none }]))).1
      { code := 131026, title := none, message := none, error_data := none } [] rfl rfl
    simpa [bareStatus] using h
  · have h := (failed_status_error_code (bareStatus ("failed") (some []))).2.1 rfl
      (Or.inr rfl)
    simpa [bareStatus] using h
  · exact (failed_status_error_code (bareStatus ("pending") none)).2.2
      (by decide) (by decide) (by decide) (by decide)

/-- C9: for every message with type `reaction` whose reaction sub-object
is present, the emitted `Reaction` event carries the reaction's own
target-message id (not the enclosing envelope id) and the emoji verbatim,
including the legitimate empty string, which still produces a typed
`Reaction` event rather than `Unknown`. -/
theorem reaction_event_fields (msg : WebhookMessage) (r : ReactionMessage)
    (h : msg.message_type = "reaction") (hr : msg.reaction = some r) :
    messageEvent msg = WebhookEvent.Reaction msg.from_field r.message_id r.emoji ∧
    messageEvent msg ≠ WebhookEvent.Unknown := by
  have he : messageEvent msg = WebhookEvent.Reaction msg.from_field r.message_id r.emoji := by
    simp [messageEvent, h, hr]
  exact ⟨he, by simp [he]⟩

/-- Witness for C9 at a concrete input: a reaction whose target id differs
from the envelope id and whose emoji is the empty removal string yields a
typed `Reaction` event carrying the target id and the empty emoji. -/
theorem reaction_event_fields_witness :
    messageEvent { bareMessage ("reaction") with
        reaction := some { message_id := "wamid.target", emoji := "" } }
      = WebhookEvent.Reaction ("15550001111") ("wamid.target") ("") ∧
    ("wamid.target" : String) ≠ "wamid.test" ∧
    messageEvent { bareMessage ("reaction") with
        reaction := some { message_id := "wamid.target", emoji := "" } }
      ≠ WebhookEvent.Unknown := by
  have h := reaction_event_fields
    { bareMessage ("reaction") with
        reaction := some { message_id := "wamid.target", emoji := "" } }
    { message_id := "wamid.target", emoji := "" } rfl rfl
  refine ⟨by simpa [bareMessage] using h.1, by decide, h.2⟩

/-- The dispatch of an `interactive` message reduces to the second-level
match on the interactive sub-object. -/
theorem messageEvent_interactive (msg : WebhookMessage) (h : msg.message_type = "interactive") :
    messageEvent msg =
      match msg.interactive with
      | some interactive =>
        if interactive.response_type = "button_reply" then
          match interactive.button_reply with
          | some br => WebhookEvent.ButtonReply msg.from_field br.id br.title msg.id
          | none => WebhookEvent.Unknown
        else if interactive.response_type = "list_reply" then
          match interactive.list_reply with
          | some lr => WebhookEvent.ListReply msg.from_field lr.id lr.title msg.id
          | none => WebhookEvent.Unknown
        else WebhookEvent.Unknown
      | none => WebhookEvent.Unknown := by
  simp [messageEvent, h]

/-- C7: for every message with outer type `interactive`, a typed
`ButtonReply` (resp. `ListReply`) event carrying the inner reply's fields
is emitted exactly when the interactive sub-object is present, its inner
type discriminator is `button_reply` (resp. `list_reply`), and the
matching inner reply sub-object is present; a missing interactive
sub-object, any other inner type, or a mismatched inner sub-object yields
`Unknown`. The six clauses cover every configuration of the sub-objects. -/
theorem interactive_dispatch (msg : WebhookMessage) (h : msg.message_type = "interactive") :
    (∀ i br, msg.interactive = some i → i.response_type = "button_reply" →
        i.button_reply = some br →
        messageEvent msg = WebhookEvent.ButtonReply msg.from_field br.id br.title msg.id) ∧
    (∀ i lr, msg.interactive = some i → i.response_type = "list_reply" →
        i.list_reply = some lr →
        messageEvent msg = WebhookEvent.ListReply msg.from_field lr.id lr.title msg.id) ∧
    (msg.interactive = none → messageEvent msg = WebhookEvent.Unknown) ∧
    (∀ i, msg.interactive = some i → i.response_type ≠ "button_reply" →
        i.response_type ≠ "list_reply" → messageEvent msg = WebhookEvent.Unknown) ∧
    (∀ i, msg.interactive = some i → i.response_type = "button_reply" →
        i.button_reply = none → messageEvent msg = WebhookEvent.Unknown) ∧
    (∀ i, msg.interactive = some i → i.response_type = "list_reply" →
        i.list_reply = none → messageEvent msg = WebhookEvent.Unknown) := by
  rw [messageEvent_interactive msg h]
  refine ⟨?_, ?_, ?_, ?_, ?_, ?_⟩
  · intro i br hi ht hbr
    simp [hi, ht, hbr]
  · intro i lr hi ht hlr
    have hne : i.response_type ≠ "button_reply" := by rw [ht]; decide
    simp [hi, ht, hlr, hne]
  · intro hi
    simp [hi]
  · intro i hi h1 h2
    simp [hi, h1, h2]
  · intro i hi ht hbr
    simp [hi, ht, hbr]
  · intro i hi ht hlr
    have hne : i.response_type ≠ "button_reply" := by rw [ht]; decide
    simp [hi, ht, hlr, hne]

/-- Witness for C7 at concrete inputs: inner type `button_reply` with id
`btn_yes` and title `Yes` yields exactly that `ButtonReply` event, the
same outer type with inner type `list_reply` yields `ListReply`, and an
unrecognized inner type yields `Unknown`. -/
theorem interactive_dispatch_witness :
    messageEvent (interactiveMsg (mkInteractive ("button_reply") (some btnYesReply) none))
      = WebhookEvent.ButtonReply ("15550001111") ("btn_yes") ("Yes") ("wamid.test") ∧
    messageEvent (interactiveMsg (mkInteractive ("list_reply") none (some row1Reply)))
      = WebhookEvent.ListReply ("15550001111") ("row1") ("Row") ("wamid.test") ∧
    messageEvent (interactiveMsg (mkInteractive ("nfm_reply") none none))
      = WebhookEvent.Unknown := by
  refine ⟨?_, ?_, ?_⟩
  · have h := (interactive_dispatch
        (interactiveMsg (mkInteractive ("button_reply") (some btnYesReply) none)) rfl).1
        (mkInteractive ("button_reply") (some btnYesReply) none) btnYesReply rfl rfl rfl
    simpa [bareMessage, interactiveMsg, btnYesReply] using h
  · have h := (interactive_dispatch
        (interactiveMsg (mkInteractive ("list_reply") none (some row1Reply))) rfl).2.1
        (mkInteractive ("list_reply") none (some row1Reply)) row1Reply rfl rfl rfl
    simpa [bareMessage, interactiveMsg, row1Reply] using h
  · exact (interactive_dispatch
        (interactiveMsg (mkInteractive ("nfm_reply") none none)) rfl).2.2.2.1
        (mkInteractive ("nfm_reply") none none) rfl (by decide) (by decide)

/-! ## Signature verification lemmas -/

/-- The little-endian decomposition always yields exactly `k` bytes. -/
theorem length_natToLeBytes (k v : Nat) : (natToLeBytes k v).length = k := by
  induction k generalizing v with
  | zero => rfl
  | succ k ih => simp [natToLeBytes, ih]

/-- The placeholder mac always yields exactly 32 bytes. -/
theorem length_mac (H : List Nat → List Nat → Nat) (data key : List Nat) :
    (HMAC.mac H data key).length = 32 := by
  simp [HMAC.mac, length_natToLeBytes]

/-- Hex encoding distributes over concatenation of byte sequences. -/
theorem hexEncodeChars_append (xs ys : List Nat) :
    hexEncodeChars (xs ++ ys) = hexEncodeChars xs ++ hexEncodeChars ys := by
  simp [hexEncodeChars]

/-- Hex encoding yields two characters per byte. -/
theorem length_hexEncodeChars (bytes : List Nat) :
    (hexEncodeChars bytes).length = 2 * bytes.length := by
  induction bytes with
  | nil => rfl
  | cons b bs ih =>
      simp only [hexEncodeChars, List.flatMap_cons, List.length_append, byteHexChars,
        List.length_cons, List.length_nil, List.length_cons] at *
      omega

/-- Hex digits of values below 16 are lowercase hexadecimal characters. -/
theorem hexDigitChar_isLowerHex : ∀ n < 16, isLowerHexChar (hexDigitChar n) = true := by
  decide

/-- Every character of a hex encoding is a lowercase hexadecimal
character. -/
theorem mem_hexEncodeChars (bytes : List Nat) (c : Char) (hc : c ∈ hexEncodeChars bytes) :
    isLowerHexChar c = true := by
  induction bytes with
  | nil => simp [hexEncodeChars] at hc
  | cons b bs ih =>
      simp only [hexEncodeChars, List.flatMap_cons, List.mem_append] at hc
      rcases hc with hc | hc
      · simp only [byteHexChars, List.mem_cons, List.not_mem_nil, or_false] at hc
        rcases hc with hc | hc <;> subst hc
        · exact hexDigitChar_isLowerHex _ (by omega)
        · exact hexDigitChar_isLowerHex _ (by omega)
      · exact ih hc

/-- Acceptance characterization of `verify_signature`: the check passes
exactly when the hex digest equals the scheme-stripped header. -/
theorem verify_signature_eq_true_iff (H : List Nat → List Nat → Nat)
    (payload : List Nat) (signature : List Char) (app_secret : List Nat) :
    verify_signature H payload signature app_secret = true ↔
      hexEncodeChars (HMAC.mac H payload app_secret) = dropScheme signature := by
  simp [verify_signature]

/-- Stripping the scheme marker from a header that carries it yields the
bare value. -/
theorem dropScheme_append (s : List Char) : dropScheme (schemeChars ++ s) = s := by
  have hp : schemeChars.isPrefixOf (schemeChars ++ s) = true := by
    rw [List.isPrefixOf_iff_prefix]
    exact List.prefix_append _ _
  have hl : schemeChars.length = 7 := by decide
  rw [dropScheme, if_pos hp, ← hl, List.drop_left]

/-- A header without the scheme marker is kept unchanged. -/
theorem dropScheme_no_marker (s : List Char) (h : schemeChars.isPrefixOf s = false) :
    dropScheme s = s := by
  simp [dropScheme, h]

/-- The hex encoding of 24 zero bytes is 48 zero characters. -/
theorem hexEncodeChars_replicate_zero :
    hexEncodeChars (List.replicate 24 0) = List.replicate 48 '0' := by
  decide

/-- C8: `verify_signature` is a total function of its three inputs into
the booleans (totality is intrinsic to the embedding); any malformed
header is rejected with `false` rather than an error: a scheme-stripped
value of length other than 64 is rejected, a value containing any
non-lowercase-hex character is rejected, and the optional `sha256=` scheme
marker is stripped before comparison while a header without the marker is
accepted on equal terms. -/
theorem verify_rejects_malformed (H : List Nat → List Nat → Nat)
    (payload : List Nat) (signature : List Char) (app_secret : List Nat) :
    ((dropScheme signature).length ≠ 64 →
      verify_signature H payload signature app_secret = false) ∧
    ((∃ c ∈ dropScheme signature, isLowerHexChar c = false) →
      verify_signature H payload signature app_secret = false) ∧
    (∀ s : List Char, schemeChars.isPrefixOf s = false →
      verify_signature H payload (schemeChars ++ s) app_secret
        = verify_signature H payload s app_secret) := by
  refine ⟨?_, ?_, ?_⟩
  · intro hlen
    cases hv : verify_signature H payload signature app_secret with
    | false => rfl
    | true =>
        exfalso
        apply hlen
        rw [← (verify_signature_eq_true_iff H payload signature app_secret).mp hv,
          length_hexEncodeChars, length_mac]
  · rintro ⟨c, hc, hcf⟩
    cases hv : verify_signature H payload signature app_secret with
    | false => rfl
    | true =>
        exfalso
        rw [← (verify_signature_eq_true_iff H payload signature app_secret).mp hv] at hc
        rw [mem_hexEncodeChars _ c hc] at hcf
        exact absurd hcf (by decide)
  · intro s hs
    rw [verify_signature, verify_signature, dropScheme_append, dropScheme_no_marker s hs]

/-- Witness for C8 at concrete inputs: a one-character header and a header
of 64 `z` characters are both rejected, and a header carrying the scheme
marker verifies exactly like its bare value. -/
theorem verify_rejects_malformed_witness :
    verify_signature hZero [] (['z']) [] = false ∧
    verify_signature hZero [] (List.replicate 64 'z') [] = false ∧
    verify_signature hZero [] (schemeChars ++ sigFirstMismatch) []
      = verify_signature hZero [] sigFirstMismatch [] := by
  refine ⟨(verify_rejects_malformed hZero [] (['z']) []).1 (by decide),
          (verify_rejects_malformed hZero [] (List.replicate 64 'z') []).2.1 (by decide),
          (verify_rejects_malformed hZero [] [] []).2.2 sigFirstMismatch (by decide)⟩

/-- C10: for every abstract hasher, payload and key, the placeholder mac
returns a 32-byte digest whose bytes at indices 8 through 31 are zero, the
hex digest `verify_signature` computes always ends in 48 zero characters,
and `verify_signature` rejects every header whose scheme-stripped value
does not end in 48 zero characters, regardless of body or secret. -/
theorem mac_zero_tail (H : List Nat → List Nat → Nat) :
    (∀ data key, (HMAC.mac H data key).length = 32 ∧
        (HMAC.mac H data key).drop 8 = List.replicate 24 0) ∧
    (∀ data key, (hexEncodeChars (HMAC.mac H data key)).drop 16 = List.replicate 48 '0') ∧
    (∀ payload signature app_secret,
        (List.replicate 48 '0').isSuffixOf (dropScheme signature) = false →
        verify_signature H payload signature app_secret = false) := by
  refine ⟨?_, ?_, ?_⟩
  · intro data key
    refine ⟨length_mac H data key, ?_⟩
    rw [HMAC.mac]
    exact List.drop_left' (length_natToLeBytes 8 (H key data))
  · intro data key
    have hlen : (hexEncodeChars (natToLeBytes 8 (H key data))).length = 16 := by
      rw [length_hexEncodeChars, length_natToLeBytes]
    rw [HMAC.mac, hexEncodeChars_append, hexEncodeChars_replicate_zero]
    exact List.drop_left' hlen
  · intro payload signature app_secret hsuf
    cases hv : verify_signature H payload signature app_secret with
    | false => rfl
    | true =>
        exfalso
        have heq := (verify_signature_eq_true_iff H payload signature app_secret).mp hv
        have hs : (List.replicate 48 '0').isSuffixOf (dropScheme signature) = true := by
          rw [List.isSuffixOf_iff_suffix, ← heq, HMAC.mac, hexEncodeChars_append,
            hexEncodeChars_replicate_zero]
          exact List.suffix_append _ _
        rw [hs] at hsuf
        exact absurd hsuf (by decide)

/-- Witness for C10 at concrete inputs: under the zero hasher the mac of
the empty payload has a zero tail, its hex digest ends in 48 zero
characters, and a header of 64 `a` characters is rejected. -/
theorem mac_zero_tail_witness :
    (HMAC.mac hZero [] []).drop 8 = List.replicate 24 0 ∧
    (hexEncodeChars (HMAC.mac hZero [] [])).drop 16 = List.replicate 48 '0' ∧
    verify_signature hZero [] (List.replicate 64 'a') [] = false := by
  refine ⟨((mac_zero_tail hZero).1 [] []).2, (mac_zero_tail hZero).2.1 [] [],
    (mac_zero_tail hZero).2.2 [] (List.replicate 64 'a') [] (by decide)⟩

/-- C1 (code defect): the final comparison of `verify_signature` is Rust
string equality, which compares lengths and then characters left to right,
stopping at the first mismatch: two equal-length rejected signatures that
differ from the computed digest at the first versus the last position cost
1 versus 64 character comparisons, so the comparison time depends on the
position of the first mismatched hex digit, contradicting the
constant-time comparison the specification and the code's own comment
describe. -/
theorem verify_compare_not_constant_time :
    verify_signature hZero [] sigFirstMismatch [] = false ∧
    verify_signature hZero [] sigLastMismatch [] = false ∧
    sigFirstMismatch.length = sigLastMismatch.length ∧
    verifyCost hZero [] sigFirstMismatch [] = 1 ∧
    verifyCost hZero [] sigLastMismatch [] = 64 := by
  decide

end WaCloud
